import Mathlib

/-!
Verification of the Digitara receipt-extraction backend.

The development shallowly embeds the extraction pipeline of the repository:
the AI-service response parser and data repair step (`parseAndValidateResponse`,
`validateAndEnhanceData` in `src/ai/ai.service.ts`, the version assembled into
`src/main.ts`), the retry loop of `AiService.extractReceiptData`, the
consistency validator `validateExtractionConsistency` (current
`src/receipts/dto/validation.utils.ts`), the status classifier
`determineExtractionStatus` (`src/receipts/receipts.validation.service.ts`) and
the extraction use case of `src/receipts/receipts.service.ts`.

Modelling conventions:
- JavaScript numbers are modelled as exact rationals (ℚ); `Number.prototype.toFixed(2)`
  is modelled as rounding half-up to two decimals (`round2`).
- A field that may be `undefined` (or `null` where the code treats both alike)
  is an `Option`; JavaScript truthiness of numbers (`0`, `NaN` falsy) and
  strings (`""` falsy) is made explicit (`qTruthy`, `sTruthy`).
- The one place where the code distinguishes `null` from `undefined` from a
  non-number (validation of `total` in the parser) uses the dedicated type
  `JsonNum`.
- `item_cost` is modelled as a number (the repair code folds over costs
  without a guard; the validator's `(item.item_cost || 0)` guard is then the
  identity).
- `new Date(...)` parsing (environment-dependent) is abstracted as an explicit
  `dateParse : String → Option String` parameter of the repair step.
-/

/-- `receipt_items` entry: `item_name`, `item_cost`, optional `quantity`. -/
structure ReceiptItem where
  item_name : String
  item_cost : ℚ
  quantity : Option ℚ
deriving DecidableEq

/-- An entry of `tax_details.additional_taxes`. -/
structure TaxEntry where
  name : String
  amount : Option ℚ
deriving DecidableEq

/-- `tax_details` as used by the pipeline. -/
structure TaxDetails where
  tax_inclusive : Option Bool
  additional_taxes : Option (List TaxEntry)
deriving DecidableEq

/-- `image_quality` as produced by the model. -/
structure ImageQuality where
  is_clear : Bool
  issues : List String
deriving DecidableEq

/-- The record shape flowing through repair, validation and classification.
Fields may be absent (`none` models `undefined`/`null`). -/
structure ReceiptData where
  vendor_name : Option String
  receipt_items : Option (List ReceiptItem)
  date : Option String
  subtotal : Option ℚ
  tax : Option ℚ
  tax_details : Option TaxDetails
  total : Option ℚ
  image_quality : Option ImageQuality
  currency : Option String
  confidence_score : Option ℚ
deriving DecidableEq

/-- JavaScript truthiness of an optional number: `undefined`, `null` and `0`
are falsy. -/
def qTruthy : Option ℚ → Bool
  | some q => decide (q ≠ 0)
  | none => false

/-- JavaScript truthiness of an optional string: `undefined` and `""` are
falsy. -/
def sTruthy : Option String → Bool
  | some s => decide (s ≠ "")
  | none => false

/-- `Number((x).toFixed(2))`: round half-up to two decimal places. -/
def round2 (q : ℚ) : ℚ := (round (q * 100) : ℤ) / 100

/-- `item.quantity || 1` (a missing or zero quantity counts as 1). -/
def itemQuantity (i : ReceiptItem) : ℚ :=
  match i.quantity with
  | some q => if q = 0 then 1 else q
  | none => 1

/-- `receipt_items.reduce((sum, item) => sum + item.item_cost * (item.quantity || 1), 0)`. -/
def itemsSubtotal (items : List ReceiptItem) : ℚ :=
  items.foldl (fun sum i => sum + i.item_cost * itemQuantity i) 0

/-- The twelve supported currency codes (`validCurrencies` in the repair step,
`supportedCurrencies` in the validation utilities). -/
def validCurrencies : List String :=
  ["USD", "EUR", "GBP", "CAD", "AUD", "SGD", "CHF", "JPY", "CNY", "INR", "NZD", "HKD"]

/-- `s.includes(pat)` for strings (substring containment). -/
def strIncludes (s pat : String) : Bool := (s.splitOn pat).length != 1

/-- `AiService.inferCurrency`: substring matches on the lower-cased vendor
name, defaulting to USD. -/
def inferCurrency (d : ReceiptData) : String :=
  let v := (d.vendor_name.getD "").toLower
  if strIncludes v "australia" || strIncludes v "sydney" then "AUD"
  else if strIncludes v "canada" || strIncludes v "toronto" then "CAD"
  else if strIncludes v "singapore" then "SGD"
  else if strIncludes v "switzerland" || strIncludes v "swiss" then "CHF"
  else if strIncludes v "europe" || strIncludes v "euro" then "EUR"
  else if strIncludes v "uk" || strIncludes v "britain" then "GBP"
  else "USD"

/-- Currency step of `validateAndEnhanceData`: keep a supported code, else
infer from the vendor name. -/
def repairedCurrency (d : ReceiptData) : String :=
  match d.currency with
  | some c => if validCurrencies.contains c then c else inferCurrency d
  | none => inferCurrency d

/-- Date step of `validateAndEnhanceData`: `if (data.date) data.date = parseAndFormatDate(data.date)`. -/
def repairedDate (dateParse : String → Option String) (d : ReceiptData) : Option String :=
  match d.date with
  | some s => if s != "" then dateParse s else some s
  | none => none

/-- `if (!data.tax_details) data.tax_details = {}`. -/
def ensuredTaxDetails (d : ReceiptData) : TaxDetails :=
  d.tax_details.getD { tax_inclusive := none, additional_taxes := none }

/-- Currencies whose receipts default to tax-inclusive pricing. -/
def taxInclusiveCurrencies : List String := ["EUR", "GBP", "CHF", "AUD", "NZD"]

/-- Tax-inclusive resolution of `validateAndEnhanceData`: explicit flag if
present, otherwise a currency-based default. -/
def resolvedTaxInclusive (d : ReceiptData) : Bool :=
  match (ensuredTaxDetails d).tax_inclusive with
  | some b => b
  | none => taxInclusiveCurrencies.contains (repairedCurrency d)

/-- Subtotal derivation of `validateAndEnhanceData` (operates on the raw
`subtotal`, `total`, `tax` fields, before the multi-tax step). -/
def repairedSubtotal (d : ReceiptData) : Option ℚ :=
  if resolvedTaxInclusive d then
    if !qTruthy d.subtotal && qTruthy d.total && qTruthy d.tax then
      some (round2 (d.total.getD 0 - d.tax.getD 0))
    else d.subtotal
  else
    if !qTruthy d.subtotal && d.receipt_items.isSome then
      some (round2 (itemsSubtotal (d.receipt_items.getD [])))
    else d.subtotal

/-- `additional_taxes.reduce((sum, tax) => sum + (tax.amount || 0), 0)`. -/
def additionalTaxSum (ts : List TaxEntry) : ℚ :=
  ts.foldl (fun sum t => sum + t.amount.getD 0) 0

/-- Multi-tax step of `validateAndEnhanceData`: with a non-empty
`additional_taxes` list, replace `tax` by the rounded sum when it disagrees by
more than 0.01.  A missing `tax` is never replaced (in the source
`Math.abs(undefined - sum) > 0.01` is a `NaN` comparison, hence false). -/
def repairedTaxOpt (d : ReceiptData) : Option ℚ :=
  match (ensuredTaxDetails d).additional_taxes with
  | some ts =>
    if 0 < ts.length then
      match d.tax with
      | some t =>
        if |t - additionalTaxSum ts| > 1 / 100 then some (round2 (additionalTaxSum ts))
        else some t
      | none => none
    else d.tax
  | none => d.tax

/-- `data.image_quality && data.image_quality.is_clear === false`. -/
def imageUnclear (d : ReceiptData) : Bool :=
  match d.image_quality with
  | some iq => iq.is_clear == false
  | none => false

/-- Confidence scoring of `validateAndEnhanceData`, in source order: the
mathematical-consistency score is assigned first and the image-quality score
overwrites it afterwards.  (`calculatedTotal - data.total` with a `null`
total is `calculatedTotal - 0` in JavaScript.) -/
def confidenceScore (d : ReceiptData) : ℚ :=
  let calculatedTotal := (repairedSubtotal d).getD 0 + (repairedTaxOpt d).getD 0
  let isValid := |calculatedTotal - d.total.getD 0| ≤ 1 / 100
  let base := if ¬isValid then 4 / 5 else 19 / 20
  if imageUnclear d then
    if d.total = none then 1 / 2 else 7 / 10
  else base

/-- `AiService.validateAndEnhanceData`: the full repair step.  The final
coercions `Number(x) || 0` on `total` and `tax` make both present; a truthy
`subtotal` is re-coerced (`Number`), which is the identity on a number. -/
def validateAndEnhanceData (dateParse : String → Option String) (d : ReceiptData) : ReceiptData :=
  { vendor_name := d.vendor_name
    receipt_items := d.receipt_items
    date := repairedDate dateParse d
    subtotal := repairedSubtotal d
    tax := some ((repairedTaxOpt d).getD 0)
    tax_details := some { tax_inclusive := some (resolvedTaxInclusive d)
                          additional_taxes := (ensuredTaxDetails d).additional_taxes }
    total := some (d.total.getD 0)
    image_quality := d.image_quality
    currency := some (repairedCurrency d)
    confidence_score := some (confidenceScore d) }

/-- The value of `total` as decoded from JSON, before validation: the parser
distinguishes `null`, a number, a missing field and a non-numeric value. -/
inductive JsonNum
  | jnull
  | num (q : ℚ)
  | undef
  | nonNum
deriving DecidableEq

/-- The decoded model output handed to `parseAndValidateResponse` after
`JSON.parse` succeeded. -/
structure RawModelRecord where
  is_receipt : Option Bool
  reason : Option String
  vendor_name : Option String
  receipt_items : Option (List ReceiptItem)
  date : Option String
  subtotal : Option ℚ
  tax : Option ℚ
  tax_details : Option TaxDetails
  total : JsonNum
  image_quality : Option ImageQuality
  currency : Option String
  confidence_score : Option ℚ
deriving DecidableEq

/-- Errors raised by `parseAndValidateResponse`: the dedicated not-a-receipt
error versus every other validation failure. -/
inductive ParseFailure
  | notAReceipt (message : String)
  | invalid (message : String)
deriving DecidableEq

/-- Fallback reason when the model flags a non-receipt without a reason. -/
def defaultNotAReceiptReason : String :=
  "This image does not appear to be a receipt or invoice"

/-- The numeric value of the decoded `total` (`null` and non-numbers carry no
value). -/
def rawTotalValue : JsonNum → Option ℚ
  | .num q => some q
  | _ => none

/-- Reshape a decoded model record into the pipeline record type. -/
def toReceiptData (p : RawModelRecord) : ReceiptData :=
  { vendor_name := p.vendor_name
    receipt_items := p.receipt_items
    date := p.date
    subtotal := p.subtotal
    tax := p.tax
    tax_details := p.tax_details
    total := rawTotalValue p.total
    image_quality := p.image_quality
    currency := p.currency
    confidence_score := p.confidence_score }

/-- `parsed.image_quality && parsed.image_quality.is_clear === false`. -/
def rawImageUnclear (p : RawModelRecord) : Bool :=
  match p.image_quality with
  | some iq => iq.is_clear == false
  | none => false

/-- Acceptance of `total` when image quality is poor: `null` or a
non-negative number. -/
def totalOkPoor : JsonNum → Bool
  | .jnull => true
  | .num q => decide (0 ≤ q)
  | _ => false

/-- Strict acceptance of `total`: a non-negative number. -/
def totalOkStrict : JsonNum → Bool
  | .num q => decide (0 ≤ q)
  | _ => false

/-- `AiService.parseAndValidateResponse` after a successful `JSON.parse`:
not-a-receipt detection, required-field checks, `total` validation, then the
repair step. -/
def parseAndValidateResponse (dateParse : String → Option String) (p : RawModelRecord) :
    Except ParseFailure ReceiptData :=
  if p.is_receipt = some false then
    .error (.notAReceipt ("NOT_A_RECEIPT: " ++ p.reason.getD defaultNotAReceiptReason))
  else if !sTruthy p.vendor_name then
    .error (.invalid "Vendor name is required")
  else if p.receipt_items.isNone || (p.receipt_items.getD []).isEmpty then
    .error (.invalid "At least one receipt item is required")
  else if rawImageUnclear p then
    if !totalOkPoor p.total then
      .error (.invalid "Total must be a positive number or null if image quality is poor")
    else .ok (validateAndEnhanceData dateParse (toReceiptData p))
  else if !totalOkStrict p.total then
    .error (.invalid "Total must be a positive number")
  else .ok (validateAndEnhanceData dateParse (toReceiptData p))

/-- One raw model response, as seen by an attempt of the retry loop. -/
inductive ModelResponse
  | noContent
  | malformed (msg : String)
  | json (p : RawModelRecord)

/-- Outcome of a single attempt of `AiService.extractReceiptData` (success,
the non-retryable not-a-receipt error, or a retryable failure).  Errors other
than not-a-receipt escaping `parseAndValidateResponse` are re-thrown wrapped
as `Failed to parse AI response: ...`. -/
inductive AttemptOutcome
  | ok (d : ReceiptData)
  | notAReceipt (msg : String)
  | fail (msg : String)

/-- Classify one attempt. -/
def attemptOutcome (dateParse : String → Option String) : ModelResponse → AttemptOutcome
  | .noContent => .fail "No response content from AI model"
  | .malformed m => .fail ("Failed to parse AI response: " ++ m)
  | .json p =>
    match parseAndValidateResponse dateParse p with
    | .ok d => .ok d
    | .error (.notAReceipt m) => .notAReceipt m
    | .error (.invalid m) => .fail ("Failed to parse AI response: " ++ m)

/-- `AiService.maxRetries`. -/
def maxRetries : ℕ := 3

/-- `AiService.retryDelay` in milliseconds. -/
def retryDelayMs : ℕ := 1000

/-- Terminal result of the retry loop. -/
inductive ExtractOutcome
  | ok (d : ReceiptData)
  | notAReceipt (msg : String)
  | failedAll (msg : String)

/-- Observable trace of one run of the retry loop: its result, the backoff
delays actually awaited (in milliseconds, in order) and the number of model
invocations performed. -/
structure ExtractTrace where
  result : ExtractOutcome
  delays : List ℕ
  calls : ℕ

/-- Message of the terminal error after all attempts failed. -/
def terminalMessage (lastMsg : String) : String :=
  "Failed to extract receipt data after 3 attempts: " ++ lastMsg

/-- The `for (attempt = 1; attempt <= maxRetries; attempt++)` loop of
`AiService.extractReceiptData`, over the remaining schedule of attempt
numbers.  A not-a-receipt error is re-thrown before the retry delay; any
other failure waits `retryDelay * attempt` when further attempts remain. -/
def extractLoop (outcome : ℕ → AttemptOutcome) : List ℕ → String → ExtractTrace
  | [], lastMsg =>
    { result := .failedAll (terminalMessage lastMsg), delays := [], calls := 0 }
  | a :: rest, _ =>
    match outcome a with
    | .ok d => { result := .ok d, delays := [], calls := 1 }
    | .notAReceipt m => { result := .notAReceipt m, delays := [], calls := 1 }
    | .fail m =>
      let t := extractLoop outcome rest m
      { result := t.result
        delays := (if a < maxRetries then [retryDelayMs * a] else []) ++ t.delays
        calls := t.calls + 1 }

/-- `AiService.extractReceiptData`: run the attempts `1, 2, 3` against the
per-attempt model responses. -/
def extractReceiptData (dateParse : String → Option String)
    (responses : ℕ → ModelResponse) : ExtractTrace :=
  extractLoop (fun a => attemptOutcome dateParse (responses a)) [1, 2, 3] ""

/-- `data.tax_details?.tax_inclusive === true` in the consistency validator. -/
def validatorTaxInclusive (d : ReceiptData) : Bool :=
  match d.tax_details with
  | some td => td.tax_inclusive == some true
  | none => false

/-- `data.receipt_items?.reduce((sum, item) => sum + (item.item_cost || 0) * (item.quantity || 1), 0) || 0`. -/
def validatorItemsTotal (items : Option (List ReceiptItem)) : ℚ :=
  match items with
  | some l => itemsSubtotal l
  | none => 0

/-- Mathematical-consistency check of `validateExtractionConsistency`
(performed only when `subtotal`, `tax` and `total` are all defined): the
tax-inclusive branch expects `subtotal = total - tax` and suppresses its
warning when the per-item total matches `total`; the tax-exclusive branch
expects `subtotal + tax = total`.  Zero or one warning results. -/
def mathConsistencyWarnings (d : ReceiptData) : List String :=
  match d.subtotal, d.tax, d.total with
  | some subtotal, some tax, some total =>
    if validatorTaxInclusive d then
      let expectedSubtotal := total - tax
      if |expectedSubtotal - subtotal| > 1 / 100 then
        let itemsTotal := validatorItemsTotal d.receipt_items
        if |itemsTotal - total| ≤ 1 / 100 then []
        else
          [s!"Tax-inclusive receipt validation: Expected subtotal of {expectedSubtotal} (total {total} - tax {tax}), but found {subtotal}"]
      else []
    else
      if |subtotal + tax - total| > 1 / 100 then
        [s!"Mathematical inconsistency: subtotal ({subtotal}) + tax ({tax}) = {subtotal + tax}, but total is {total}"]
      else []
  | _, _, _ => []

/-- `isSupportedCurrency` from the validation utilities. -/
def isSupportedCurrency (c : String) : Bool := validCurrencies.contains c.toUpper

/-- The missing-data and currency warnings of `validateExtractionConsistency`,
in source order. -/
def missingDataWarnings (d : ReceiptData) : List String :=
  (if !sTruthy d.vendor_name then ["Vendor name could not be extracted"] else []) ++
  (if d.receipt_items.isNone || (d.receipt_items.getD []).isEmpty then
    ["No receipt items could be extracted"] else []) ++
  (if !sTruthy d.date then ["Receipt date could not be determined"] else []) ++
  (match d.currency with
   | some c => if c != "" && !isSupportedCurrency c then
       ["Unsupported currency detected: " ++ c] else []
   | none => [])

/-- `validateExtractionConsistency` (current `validation.utils.ts`): the
mathematical-consistency warning, if any, followed by the missing-data
warnings. -/
def validateExtractionConsistency (d : ReceiptData) : List String :=
  mathConsistencyWarnings d ++ missingDataWarnings d

/-- The ternary extraction status. -/
inductive ExtractionStatus
  | success
  | partialResult
  | failed
deriving DecidableEq

/-- `data.confidence_score && data.confidence_score < 0.7` (a missing or zero
score is falsy and does not trigger the partial status). -/
def lowConfidence (c : Option ℚ) : Bool :=
  match c with
  | some q => decide (q ≠ 0) && decide (q < 7 / 10)
  | none => false

/-- `data.receipt_items?.length` is truthy (list present and non-empty). -/
def itemsLengthTruthy (d : ReceiptData) : Bool :=
  match d.receipt_items with
  | some l => !l.isEmpty
  | none => false

/-- `ReceiptsValidationService.determineExtractionStatus`: failed on missing
critical data, else partial on many warnings or truthy low confidence, else
success. -/
def determineExtractionStatus (d : ReceiptData) (warnings : List String) : ExtractionStatus :=
  if !sTruthy d.vendor_name || !qTruthy d.total || !itemsLengthTruthy d then .failed
  else if decide (warnings.length > 2) || lowConfidence d.confidence_score then .partialResult
  else .success

/-- `AiService.generateWarnings`, applied to the repaired record, in source
push order. -/
def generateWarnings (d : ReceiptData) : List String :=
  (if !sTruthy d.date then ["Date could not be extracted"] else []) ++
  (if !sTruthy d.vendor_name then ["Vendor name could not be determined"] else []) ++
  (if (d.receipt_items.getD []).isEmpty then ["No items could be extracted"] else []) ++
  (if imageUnclear d && !(d.image_quality.map ImageQuality.issues |>.getD []).isEmpty then
    (d.image_quality.map ImageQuality.issues |>.getD []).map
      (fun issue => "Image Quality: " ++ issue)
   else []) ++
  (if imageUnclear d then
    (d.receipt_items.getD []).flatMap (fun item =>
      (if item.item_name = "Unknown Item (unclear image)" then
        ["Image Quality: an item name could not be identified due to poor readability."]
       else []) ++
      (if item.item_cost = 0 then
        ["Image Quality: an item cost was set to 0.00 due to poor readability or missing value."]
       else []))
   else []) ++
  (match d.subtotal, d.tax, d.total with
   | some subtotal, some tax, some total =>
     if |subtotal + tax - total| > 1 / 100 then
       [s!"Mathematical validation: subtotal ({subtotal}) + tax ({tax}) does not equal total"]
     else []
   | _, _, _ => []) ++
  (match d.confidence_score with
   | some c => if c < 9 / 10 then ["Low confidence in extraction accuracy"] else []
   | none => [])

/-- Options of the extraction use case. -/
structure ExtractOptions where
  customId : Option String
  saveImage : Option Bool
  includeMetadata : Bool

/-- Outcomes of the two persistence collaborators for one request: the image
store returns a URL or throws; the record store saves or throws. -/
structure CollabOutcomes where
  imageSave : Except String String
  dbSave : Except String Unit

/-- The response assembled by `ReceiptsService.extractReceiptData`. -/
structure ReceiptResponse where
  status : ExtractionStatus
  extraction_id : String
  date : Option String
  currency : Option String
  vendor_name : Option String
  receipt_items : Option (List ReceiptItem)
  subtotal : Option ℚ
  tax : Option ℚ
  total : Option ℚ
  confidence_score : Option ℚ
  image_url : Option String
  metadata_warnings : Option (List String)
deriving DecidableEq

/-- `ReceiptsService.extractReceiptData`: save the image when requested
(failure logged and swallowed), run the AI extraction, merge the AI metadata
warnings with the consistency warnings, classify, assemble the response and
attempt the database save (failure logged and swallowed). `freshId` stands
for the generated UUID used when no custom id is supplied. -/
def extractUseCase (dateParse : String → Option String) (freshId : String)
    (opts : ExtractOptions) (eff : CollabOutcomes)
    (responses : ℕ → ModelResponse) : Except String ReceiptResponse :=
  let extractionId := opts.customId.getD freshId
  let imageUrl : Option String :=
    if opts.saveImage ≠ some false then
      match eff.imageSave with
      | .ok url => some url
      | .error _ => none
    else none
  match (extractReceiptData dateParse responses).result with
  | .notAReceipt m => .error m
  | .failedAll m => .error m
  | .ok d =>
    let metadataWarnings := generateWarnings d
    let consistencyWarnings := validateExtractionConsistency d
    let allWarnings := metadataWarnings ++ consistencyWarnings
    let status := determineExtractionStatus d allWarnings
    let response : ReceiptResponse :=
      { status := status
        extraction_id := extractionId
        date := d.date
        currency := d.currency
        vendor_name := d.vendor_name
        receipt_items := d.receipt_items
        subtotal := d.subtotal
        tax := d.tax
        total := d.total
        confidence_score := d.confidence_score
        image_url := imageUrl
        metadata_warnings := if opts.includeMetadata then some allWarnings else none }
    match eff.dbSave with
    | .ok _ => .ok response
    | .error _ => .ok response

/-- The rounded value stays within 0.01 of the original. -/
theorem round2_close (q : ℚ) : |round2 q - q| ≤ 1 / 100 := by
  have h : |round2 q - q| = |(round (q * 100) : ℚ) - q * 100| / 100 := by
    rw [round2]
    rw [show ((round (q * 100) : ℤ) : ℚ) / 100 - q = ((round (q * 100) : ℚ) - q * 100) / 100 by
      ring]
    rw [abs_div]
    norm_num
  rw [h]
  have h2 : |(round (q * 100) : ℚ) - q * 100| ≤ 1 / 2 := by
    rw [abs_sub_comm]
    exact abs_sub_round (q * 100)
  linarith

/-- C1: for every record the repair step assigns the confidence score by the
fixed decision order of the claim: poor image quality with a null total gives
0.5, poor image quality with an extracted total gives 0.7, and only
otherwise does the mathematical-consistency check decide between 0.8
(violation beyond the 0.01 tolerance) and 0.95; the image-quality values
supersede the consistency values whenever both conditions apply. -/
theorem confidence_score_decision_order (dateParse : String → Option String) (d : ReceiptData) :
    (validateAndEnhanceData dateParse d).confidence_score =
      some (if imageUnclear d then (if d.total = none then 1 / 2 else 7 / 10)
            else if 1 / 100 <
                |(repairedSubtotal d).getD 0 + (repairedTaxOpt d).getD 0 - d.total.getD 0| then
              4 / 5
            else 19 / 20) := by
  simp only [validateAndEnhanceData, confidenceScore]
  by_cases h : imageUnclear d = true <;> simp [h, not_le]

/-- `lowConfidence` holds exactly for a present, non-zero score below 0.7. -/
theorem lowConfidence_iff (c : Option ℚ) :
    lowConfidence c = true ↔ ∃ q, c = some q ∧ q ≠ 0 ∧ q < 7 / 10 := by
  cases c <;> simp [lowConfidence]

/-- A record with every critical field present but a confidence score of
exactly 0: zero is falsy in JavaScript, so the low-confidence branch of the
classifier is skipped. -/
def zeroScoreRecord : ReceiptData :=
  { vendor_name := some "Corner Shop"
    receipt_items := some [{ item_name := "Milk", item_cost := 1, quantity := none }]
    date := none
    subtotal := none
    tax := some 0
    tax_details := none
    total := some 1
    image_quality := none
    currency := some "USD"
    confidence_score := some 0 }

/-- C2, counterexample: a record whose confidence score is 0 (< 0.7) with no
warnings and all critical fields present is classified `success`, while the
claim requires `partial` whenever `confidence_score < 0.7`. -/
theorem status_zero_confidence_counterexample :
    determineExtractionStatus zeroScoreRecord [] = .success ∧ (0 : ℚ) < 7 / 10 := by
  refine ⟨?_, by norm_num⟩
  simp [determineExtractionStatus, zeroScoreRecord, sTruthy, qTruthy, itemsLengthTruthy,
    lowConfidence]

/-- C2, amended: the classifier is the decision list of the claim except that
the low-confidence test also requires the score to be present and non-zero
(`data.confidence_score &&` is a truthiness guard): `failed` when the vendor
name is absent or empty, the total is absent or 0, or the item list is absent
or empty — regardless of warnings and confidence; otherwise `partial` when
more than two warnings or a present non-zero score below 0.7; otherwise
`success`.  As a Lean function it is pure by construction. -/
theorem determine_extraction_status_spec (d : ReceiptData) (warnings : List String) :
    (determineExtractionStatus d warnings = .failed ↔
      (sTruthy d.vendor_name = false ∨ qTruthy d.total = false ∨ itemsLengthTruthy d = false))
    ∧ (determineExtractionStatus d warnings = .partialResult ↔
      (sTruthy d.vendor_name = true ∧ qTruthy d.total = true ∧ itemsLengthTruthy d = true) ∧
        (2 < warnings.length ∨ ∃ q, d.confidence_score = some q ∧ q ≠ 0 ∧ q < 7 / 10))
    ∧ (determineExtractionStatus d warnings = .success ↔
      (sTruthy d.vendor_name = true ∧ qTruthy d.total = true ∧ itemsLengthTruthy d = true) ∧
        ¬(2 < warnings.length) ∧ ¬∃ q, d.confidence_score = some q ∧ q ≠ 0 ∧ q < 7 / 10) := by
  unfold determineExtractionStatus
  by_cases hv : sTruthy d.vendor_name <;>
    by_cases ht : qTruthy d.total <;>
      by_cases hi : itemsLengthTruthy d <;>
        by_cases hw : 2 < warnings.length <;>
          by_cases hc : lowConfidence d.confidence_score = true <;>
            simp_all [lowConfidence_iff, Bool.not_eq_true]
  all_goals (split <;> simp)

/-- C3: whichever attempt (1, 2 or 3) first yields a decoded record with
`is_receipt = false` (all earlier attempts having failed retryably), the
orchestrator stops with the not-a-receipt error carrying the model-supplied
reason, and the number of model invocations equals that attempt number — no
further retries are performed. -/
theorem not_a_receipt_stops_retries (dateParse : String → Option String)
    (responses : ℕ → ModelResponse) (p : RawModelRecord) (a : ℕ)
    (ha1 : 1 ≤ a) (ha3 : a ≤ 3)
    (hprev : ∀ b, 1 ≤ b → b < a → ∃ m, attemptOutcome dateParse (responses b) = .fail m)
    (hp : responses a = .json p) (hnr : p.is_receipt = some false) :
    (extractReceiptData dateParse responses).result =
      .notAReceipt ("NOT_A_RECEIPT: " ++ p.reason.getD defaultNotAReceiptReason) ∧
    (extractReceiptData dateParse responses).calls = a := by
  have houtcome : attemptOutcome dateParse (responses a) =
      .notAReceipt ("NOT_A_RECEIPT: " ++ p.reason.getD defaultNotAReceiptReason) := by
    rw [hp]
    simp [attemptOutcome, parseAndValidateResponse, hnr]
  interval_cases a
  · exact ⟨by simp [extractReceiptData, extractLoop, houtcome],
      by simp [extractReceiptData, extractLoop, houtcome]⟩
  · obtain ⟨m1, h1⟩ := hprev 1 (by norm_num) (by norm_num)
    exact ⟨by simp [extractReceiptData, extractLoop, h1, houtcome],
      by simp [extractReceiptData, extractLoop, h1, houtcome]⟩
  · obtain ⟨m1, h1⟩ := hprev 1 (by norm_num) (by norm_num)
    obtain ⟨m2, h2⟩ := hprev 2 (by norm_num) (by norm_num)
    exact ⟨by simp [extractReceiptData, extractLoop, h1, h2, houtcome],
      by simp [extractReceiptData, extractLoop, h1, h2, houtcome]⟩

/-- Decoded model output that flags a non-receipt with a reason. -/
def notAReceiptRaw : RawModelRecord :=
  { is_receipt := some false
    reason := some "photo of a cat"
    vendor_name := none
    receipt_items := none
    date := none
    subtotal := none
    tax := none
    tax_details := none
    total := .undef
    image_quality := none
    currency := none
    confidence_score := none }

/-- C3, witness: the spec scenario — `{is_receipt: false, reason: "photo of a
cat"}` on the first attempt raises immediately after exactly one model call. -/
theorem not_a_receipt_stops_retries_witness :
    (extractReceiptData (fun _ => none) (fun _ => .json notAReceiptRaw)).result =
      .notAReceipt ("NOT_A_RECEIPT: " ++ "photo of a cat") ∧
    (extractReceiptData (fun _ => none) (fun _ => .json notAReceiptRaw)).calls = 1 :=
  not_a_receipt_stops_retries (fun _ => none) (fun _ => .json notAReceiptRaw)
    notAReceiptRaw 1 (le_refl 1) (by norm_num)
    (fun b hb hlt => absurd (lt_of_le_of_lt hb hlt) (lt_irrefl 1)) rfl rfl

/-- Model responses in which every attempt fails retryably (no response
content). -/
def allFailResponses : ℕ → ModelResponse := fun _ => .noContent

/-- C4, counterexample: with every attempt failing, the delays actually
awaited between consecutive attempts are 1s and 2s only — there are two gaps
between three attempts, so the claimed schedule 1s, 2s, 3s never occurs. -/
theorem retry_schedule_counterexample :
    (extractReceiptData (fun _ => none) allFailResponses).delays = [1000, 2000] ∧
    ([1000, 2000] : List ℕ) ≠ [1000, 2000, 3000] := by
  refine ⟨?_, by simp⟩
  simp [extractReceiptData, extractLoop, allFailResponses, attemptOutcome, maxRetries,
    retryDelayMs]

/-- C4, amended: every failure other than not-a-receipt is retried up to a
total of 3 attempts, with a delay of attempt x 1s after each failed
non-final attempt (so the schedule between consecutive attempts is 1s, 2s —
no delay follows the final attempt); after exhausting the attempts the
orchestrator raises a terminal error whose message wraps the last failure
message and the attempt count. -/
theorem retry_exhaustion_spec (dateParse : String → Option String)
    (responses : ℕ → ModelResponse) (m1 m2 m3 : String)
    (h1 : attemptOutcome dateParse (responses 1) = .fail m1)
    (h2 : attemptOutcome dateParse (responses 2) = .fail m2)
    (h3 : attemptOutcome dateParse (responses 3) = .fail m3) :
    (extractReceiptData dateParse responses).result = .failedAll (terminalMessage m3) ∧
    (extractReceiptData dateParse responses).delays = [1000, 2000] ∧
    (extractReceiptData dateParse responses).calls = 3 := by
  refine ⟨?_, ?_, ?_⟩ <;>
    simp [extractReceiptData, extractLoop, h1, h2, h3, maxRetries, retryDelayMs]

/-- C4, witness: three no-content attempts produce the terminal wrapped
error, the 1s and 2s delays, and exactly three model calls. -/
theorem retry_exhaustion_spec_witness :
    (extractReceiptData (fun _ => none) allFailResponses).result =
      .failedAll (terminalMessage "No response content from AI model") ∧
    (extractReceiptData (fun _ => none) allFailResponses).delays = [1000, 2000] ∧
    (extractReceiptData (fun _ => none) allFailResponses).calls = 3 :=
  retry_exhaustion_spec (fun _ => none) allFailResponses
    "No response content from AI model" "No response content from AI model"
    "No response content from AI model" rfl rfl rfl

/-- A record with one additional tax of 1.005 and a raw tax of 1: the two
disagree by only 0.005 ≤ 0.01, so the repair step keeps the raw tax. -/
def multiTaxRecord : ReceiptData :=
  { vendor_name := some "Shop"
    receipt_items := some [{ item_name := "A", item_cost := 1, quantity := none }]
    date := none
    subtotal := some 1
    tax := some 1
    tax_details := some { tax_inclusive := some false
                          additional_taxes := some [{ name := "GST", amount := some (201 / 200) }] }
    total := some 2
    image_quality := none
    currency := some "USD"
    confidence_score := none }

/-- C5, counterexample: with a non-empty `additional_taxes` list summing to
1.005 and a raw tax of 1, the repaired record keeps tax = 1, which differs
from the sum — the repair step does not recompute `tax` as the sum whenever
the list is non-empty, only when the raw value disagrees by more than 0.01. -/
theorem repaired_tax_counterexample :
    (validateAndEnhanceData (fun _ => none) multiTaxRecord).tax = some 1 ∧
    additionalTaxSum [{ name := "GST", amount := some (201 / 200) }] = 201 / 200 ∧
    (1 : ℚ) ≠ 201 / 200 := by
  have habs : |(1 : ℚ) - 201 / 200| = 1 / 200 := by
    rw [show (1 : ℚ) - 201 / 200 = -(1 / 200) by norm_num, abs_neg, abs_of_nonneg (by norm_num)]
  refine ⟨?_, by norm_num [additionalTaxSum], by norm_num⟩
  simp [validateAndEnhanceData, repairedTaxOpt, ensuredTaxDetails, multiTaxRecord,
    additionalTaxSum, habs]
  norm_num

/-- C5, amended: whenever `additional_taxes` is non-empty and the raw record
carries a numeric `tax`, the repair step recomputes `tax` as the sum of the
additional-tax amounts rounded to two decimals only when the raw value
disagrees with that sum by more than 0.01, and keeps the raw value otherwise;
in both cases the repaired `tax` is within 0.01 of the sum. -/
theorem repaired_tax_spec (dateParse : String → Option String) (d : ReceiptData)
    (t : ℚ) (ts : List TaxEntry)
    (ht : d.tax = some t) (hts : (ensuredTaxDetails d).additional_taxes = some ts)
    (hne : ts ≠ []) :
    (validateAndEnhanceData dateParse d).tax =
      some (if 1 / 100 < |t - additionalTaxSum ts| then round2 (additionalTaxSum ts) else t) ∧
    ∀ t', (validateAndEnhanceData dateParse d).tax = some t' →
      |t' - additionalTaxSum ts| ≤ 1 / 100 := by
  have hlen : 0 < ts.length := by
    cases ts with
    | nil => exact absurd rfl hne
    | cons x xs => simp
  have htax : repairedTaxOpt d =
      some (if 1 / 100 < |t - additionalTaxSum ts| then round2 (additionalTaxSum ts) else t) := by
    simp only [repairedTaxOpt, hts, hlen, if_pos, ht, gt_iff_lt]
    split_ifs <;> rfl
  have hfinal : (validateAndEnhanceData dateParse d).tax =
      some (if 1 / 100 < |t - additionalTaxSum ts| then round2 (additionalTaxSum ts) else t) := by
    simp [validateAndEnhanceData, htax]
  refine ⟨hfinal, ?_⟩
  intro t' h'
  rw [hfinal] at h'
  injection h' with h'
  subst h'
  split_ifs with hgt
  · have := round2_close (additionalTaxSum ts)
    linarith [this]
  · exact le_of_not_lt hgt

/-- C5, witness: on `multiTaxRecord` the raw tax 1 is within 0.01 of the sum
1.005, so it is kept; the amended characterization applies. -/
theorem repaired_tax_spec_witness :
    (validateAndEnhanceData (fun _ => none) multiTaxRecord).tax =
      some (if 1 / 100 <
          |1 - additionalTaxSum [{ name := "GST", amount := some (201 / 200) }]| then
        round2 (additionalTaxSum [{ name := "GST", amount := some (201 / 200) }])
      else 1) :=
  (repaired_tax_spec (fun _ => none) multiTaxRecord 1
    [{ name := "GST", amount := some (201 / 200) }] rfl rfl (by simp)).1

/-- A tax-inclusive record with an absent subtotal, tax 0 and total 10: the
derivation `subtotal = total - tax` is skipped because `data.tax` (0) is
falsy. -/
def inclusiveZeroTaxRecord : ReceiptData :=
  { vendor_name := some "Shop"
    receipt_items := some [{ item_name := "A", item_cost := 1, quantity := none }]
    date := none
    subtotal := none
    tax := some 0
    tax_details := some { tax_inclusive := some true, additional_taxes := none }
    total := some 10
    image_quality := none
    currency := some "USD"
    confidence_score := none }

/-- C6, counterexample: tax-inclusive, subtotal absent, total 10, tax 0 — the
claim requires subtotal to be set to total - tax = 10, but the repair step
leaves it absent (the guard `data.total && data.tax` also requires a truthy
tax). -/
theorem repaired_subtotal_counterexample :
    (validateAndEnhanceData (fun _ => none) inclusiveZeroTaxRecord).subtotal = none ∧
    (none : Option ℚ) ≠ some ((10 : ℚ) - 0) := by
  refine ⟨?_, by simp⟩
  simp [validateAndEnhanceData, repairedSubtotal, resolvedTaxInclusive, ensuredTaxDetails,
    inclusiveZeroTaxRecord, qTruthy]

/-- C6, amended: in the repair step, when the resolved tax type is inclusive
and the raw subtotal is absent or zero and both total and tax are present and
non-zero, subtotal is set to total - tax rounded to two decimals; when the
resolved tax type is exclusive and the raw subtotal is absent or zero (and
the item list field is present), subtotal is set to the rounded sum of
item_cost x quantity over all items; a present non-zero raw subtotal is kept
as-is; and in the remaining tax-inclusive case (absent-or-zero subtotal with
a falsy total or tax) the subtotal is left unchanged rather than computed. -/
theorem repaired_subtotal_spec (dateParse : String → Option String) (d : ReceiptData) :
    ((resolvedTaxInclusive d = true ∧ qTruthy d.subtotal = false ∧
        qTruthy d.total = true ∧ qTruthy d.tax = true) →
      (validateAndEnhanceData dateParse d).subtotal =
        some (round2 (d.total.getD 0 - d.tax.getD 0))) ∧
    ((resolvedTaxInclusive d = false ∧ qTruthy d.subtotal = false ∧
        d.receipt_items.isSome = true) →
      (validateAndEnhanceData dateParse d).subtotal =
        some (round2 (itemsSubtotal (d.receipt_items.getD [])))) ∧
    (qTruthy d.subtotal = true →
      (validateAndEnhanceData dateParse d).subtotal = d.subtotal) ∧
    ((resolvedTaxInclusive d = true ∧ qTruthy d.subtotal = false ∧
        ¬(qTruthy d.total = true ∧ qTruthy d.tax = true)) →
      (validateAndEnhanceData dateParse d).subtotal = d.subtotal) := by
  refine ⟨?_, ?_, ?_, ?_⟩
  · rintro ⟨hti, hs, ht, hx⟩
    simp [validateAndEnhanceData, repairedSubtotal, hti, hs, ht, hx]
  · rintro ⟨hti, hs, hitems⟩
    simp [validateAndEnhanceData, repairedSubtotal, hti, hs, hitems]
  · intro hs
    by_cases hti : resolvedTaxInclusive d = true <;>
      simp [validateAndEnhanceData, repairedSubtotal, hti, hs]
  · rintro ⟨hti, hs, hno⟩
    rcases Decidable.not_and_iff_or_not.mp hno with h | h
    · have hF : qTruthy d.total = false := by simpa using h
      simp [validateAndEnhanceData, repairedSubtotal, hti, hs, hF]
    · have hF : qTruthy d.tax = false := by simpa using h
      simp [validateAndEnhanceData, repairedSubtotal, hti, hs, hF]

/-- A tax-inclusive record with an absent subtotal and truthy total and tax. -/
def inclusiveDeriveRecord : ReceiptData :=
  { vendor_name := some "Shop"
    receipt_items := some [{ item_name := "A", item_cost := 9, quantity := none }]
    date := none
    subtotal := none
    tax := some 1
    tax_details := some { tax_inclusive := some true, additional_taxes := none }
    total := some 10
    image_quality := none
    currency := some "USD"
    confidence_score := none }

/-- C6, witness: on a tax-inclusive record with subtotal absent, total 10 and
tax 1, the repair step derives subtotal = round2(10 - 1). -/
theorem repaired_subtotal_spec_witness :
    (validateAndEnhanceData (fun _ => none) inclusiveDeriveRecord).subtotal =
      some (round2 ((10 : ℚ) - 1)) := by
  have h := (repaired_subtotal_spec (fun _ => none) inclusiveDeriveRecord).1
    ⟨rfl, rfl, by norm_num [qTruthy, inclusiveDeriveRecord],
      by norm_num [qTruthy, inclusiveDeriveRecord]⟩
  simpa [inclusiveDeriveRecord] using h

/-- C7: for every tax-exclusive record with `subtotal`, `tax` and `total` all
defined, the consistency validator produces no mathematical-consistency
warning when |subtotal + tax - total| ≤ 0.01, and exactly one such warning
when the violation exceeds 0.01; the full warning list is that warning block
followed by the (unrelated) missing-data warnings. -/
theorem tax_exclusive_consistency (d : ReceiptData) (s t T : ℚ)
    (hs : d.subtotal = some s) (ht : d.tax = some t) (hT : d.total = some T)
    (hexcl : validatorTaxInclusive d = false) :
    validateExtractionConsistency d = mathConsistencyWarnings d ++ missingDataWarnings d ∧
    (|s + t - T| ≤ 1 / 100 → mathConsistencyWarnings d = []) ∧
    (1 / 100 < |s + t - T| → (mathConsistencyWarnings d).length = 1) := by
  refine ⟨rfl, ?_, ?_⟩
  · intro h
    simp only [mathConsistencyWarnings, hs, ht, hT, hexcl, Bool.false_eq_true, if_false,
      gt_iff_lt]
    rw [if_neg (not_lt.mpr h)]
  · intro h
    simp only [mathConsistencyWarnings, hs, ht, hT, hexcl, Bool.false_eq_true, if_false,
      gt_iff_lt]
    rw [if_pos h]
    rfl

/-- A consistent tax-exclusive record: subtotal 8.99, tax 0.72, total 9.71. -/
def exclusiveCleanRecord : ReceiptData :=
  { vendor_name := some "Grocery Store Inc."
    receipt_items := some [{ item_name := "Milk", item_cost := 399 / 100, quantity := some 1 },
                           { item_name := "Bread", item_cost := 250 / 100, quantity := some 2 }]
    date := some "2024-01-01"
    subtotal := some (899 / 100)
    tax := some (72 / 100)
    tax_details := some { tax_inclusive := some false, additional_taxes := none }
    total := some (971 / 100)
    image_quality := none
    currency := some "USD"
    confidence_score := some (19 / 20) }

/-- C7, witness: the spec happy-path numbers (8.99 + 0.72 = 9.71) produce no
mathematical-consistency warning. -/
theorem tax_exclusive_consistency_witness :
    mathConsistencyWarnings exclusiveCleanRecord = [] := by
  have h := (tax_exclusive_consistency exclusiveCleanRecord (899 / 100) (72 / 100) (971 / 100)
    rfl rfl rfl rfl).2.1
  apply h
  rw [show (899 : ℚ) / 100 + 72 / 100 - 971 / 100 = 0 by norm_num]
  norm_num

/-- C8: for every tax-inclusive record with `subtotal`, `tax` and `total` all
defined in which the subtotal disagrees with the inclusive expectation
`total - tax` by more than 0.01 but the per-item total matches `total`
within 0.01, the validator suppresses the mathematical-consistency warning:
the warning list is exactly the missing-data warnings. -/
theorem tax_inclusive_suppression (d : ReceiptData) (s t T : ℚ)
    (hs : d.subtotal = some s) (ht : d.tax = some t) (hT : d.total = some T)
    (hincl : validatorTaxInclusive d = true)
    (hmis : 1 / 100 < |(T - t) - s|)
    (hitems : |validatorItemsTotal d.receipt_items - T| ≤ 1 / 100) :
    mathConsistencyWarnings d = [] ∧
    validateExtractionConsistency d = missingDataWarnings d := by
  have hmath : mathConsistencyWarnings d = [] := by
    simp only [mathConsistencyWarnings, hs, ht, hT, hincl, if_true, gt_iff_lt]
    rw [if_pos hmis, if_pos hitems]
  exact ⟨hmath, by rw [validateExtractionConsistency, hmath, List.nil_append]⟩

/-- A tax-inclusive record itemized at post-tax prices: items sum to the
total 10, while the subtotal 10 disagrees with total - tax = 9. -/
def inclusiveItemizedRecord : ReceiptData :=
  { vendor_name := some "Cafe"
    receipt_items := some [{ item_name := "Menu", item_cost := 10, quantity := some 1 }]
    date := some "2024-01-01"
    subtotal := some 10
    tax := some 1
    tax_details := some { tax_inclusive := some true, additional_taxes := none }
    total := some 10
    image_quality := none
    currency := some "EUR"
    confidence_score := some (19 / 20) }

/-- C8, witness: subtotal 10 vs expectation 10 - 1 = 9 (off by 1), items
totalling exactly the total 10 — the warning is suppressed. -/
theorem tax_inclusive_suppression_witness :
    mathConsistencyWarnings inclusiveItemizedRecord = [] := by
  have h := tax_inclusive_suppression inclusiveItemizedRecord 10 1 10 rfl rfl rfl rfl
    (by rw [show ((10 : ℚ) - 1) - 10 = -1 by norm_num, abs_neg, abs_of_nonneg (by norm_num)]
        norm_num)
    (by norm_num [validatorItemsTotal, itemsSubtotal, itemQuantity, inclusiveItemizedRecord])
  exact h.1

/-- C9: persistence failures are swallowed by the extraction use case — a
record-store failure leaves the returned value exactly equal to the value
returned had the save succeeded, and an image-store failure yields the same
outcome as a successful save except that the response carries no image_url. -/
theorem persistence_failures_swallowed (dateParse : String → Option String)
    (freshId : String) (opts : ExtractOptions) (responses : ℕ → ModelResponse)
    (imageOutcome : Except String String) (dbOutcome : Except String Unit)
    (e e' u : String) :
    (extractUseCase dateParse freshId opts
        { imageSave := imageOutcome, dbSave := .error e } responses =
      extractUseCase dateParse freshId opts
        { imageSave := imageOutcome, dbSave := .ok () } responses) ∧
    (extractUseCase dateParse freshId opts
        { imageSave := .error e', dbSave := dbOutcome } responses =
      Except.map (fun r => { r with image_url := none })
        (extractUseCase dateParse freshId opts
          { imageSave := .ok u, dbSave := dbOutcome } responses)) := by
  constructor
  · unfold extractUseCase
    cases h : (extractReceiptData dateParse responses).result <;> simp
  · unfold extractUseCase
    cases h : (extractReceiptData dateParse responses).result <;>
      cases dbOutcome <;>
        by_cases hs : opts.saveImage = some false <;> simp [hs, Except.map]

/-- C10: every record produced by a successful parse has its `total` and
`tax` fields present as numbers (they are coerced with `Number(x) || 0`), and
when the decoded `total` was `null` (tolerated only under poor image quality)
the repaired record carries `total = 0`, which the status classifier treats
as falsy, so the record classifies as `failed` whatever the warning list. -/
theorem parsed_total_and_tax_present (dateParse : String → Option String)
    (p : RawModelRecord) (d : ReceiptData)
    (h : parseAndValidateResponse dateParse p = .ok d) :
    (d.total.isSome = true ∧ d.tax.isSome = true) ∧
    (p.total = .jnull →
      d.total = some 0 ∧ ∀ w, determineExtractionStatus d w = .failed) := by
  unfold parseAndValidateResponse at h
  split_ifs at h <;>
    first
      | exact Except.noConfusion h
      | (injection h with h
         subst h
         refine ⟨⟨by simp [validateAndEnhanceData], by simp [validateAndEnhanceData]⟩, ?_⟩
         intro hjn
         have htot : (validateAndEnhanceData dateParse (toReceiptData p)).total = some 0 := by
           simp [validateAndEnhanceData, toReceiptData, hjn, rawTotalValue]
         refine ⟨htot, fun w => ?_⟩
         simp [determineExtractionStatus, htot, qTruthy])

/-- Decoded model output with a `null` total under poor image quality. -/
def nullTotalRaw : RawModelRecord :=
  { is_receipt := none
    reason := none
    vendor_name := some "Shop"
    receipt_items := some [{ item_name := "A", item_cost := 1, quantity := none }]
    date := none
    subtotal := none
    tax := none
    tax_details := none
    total := .jnull
    image_quality := some { is_clear := false, issues := ["Blurry image"] }
    currency := some "USD"
    confidence_score := none }

/-- C10, witness: a decoded record with a null total and an unclear image
parses successfully, surfaces total = 0 and classifies as failed. -/
theorem parsed_total_and_tax_present_witness :
    (validateAndEnhanceData (fun _ => none) (toReceiptData nullTotalRaw)).total = some 0 ∧
    determineExtractionStatus
      (validateAndEnhanceData (fun _ => none) (toReceiptData nullTotalRaw)) [] = .failed := by
  have h := (parsed_total_and_tax_present (fun _ => none) nullTotalRaw
    (validateAndEnhanceData (fun _ => none) (toReceiptData nullTotalRaw)) rfl).2 rfl
  exact ⟨h.1, h.2 []⟩
